import Mathlib

/-!
Verification of the response-selection layer of a rule-based health-information
assistant (source: `actions.py`).  Python string operations, dict semantics and
the relevant action handlers are shallowly embedded below; machine floats of the
source are modelled as exact rationals (no claim here depends on rounding).
-/

/-- ASCII whitespace, as matched by Python's `str.strip`, `str.split` and the
regex class `\s` on the ASCII inputs this program handles. -/
def isSpace (c : Char) : Bool :=
  c == ' ' || c == '\t' || c == '\n' || c == '\r' || c == '\x0b' || c == '\x0c'

/-- Boolean substring test on character lists: `isSubList n h` is true iff `n`
occurs contiguously inside `h`.  Embeds Python's `n in h` for strings. -/
def isSubList (n : List Char) : List Char → Bool
  | [] => n.isEmpty
  | c :: t => n.isPrefixOf (c :: t) || isSubList n t

/-- Python's `needle in hay` on strings. -/
def pyIn (needle hay : String) : Bool := isSubList needle.data hay.data

/-- Python's `str.lower()` on the ASCII text this program handles:
character-wise lowering.  (Extensionally this is Lean's `String.toLower`,
re-stated as a structural map so that it evaluates by reduction.) -/
def pyLower (s : String) : String := String.mk (s.data.map Char.toLower)

/-- Python's `str.strip()`: remove leading and trailing whitespace. -/
def pstrip (l : List Char) : List Char := (l.dropWhile isSpace).rdropWhile isSpace

/-- Worker for `pyWords`: splits on whitespace runs, dropping empty fields,
with `acc` holding the (reversed) word being read.  Embeds `str.split()`. -/
def pyWordsAux : List Char → List Char → List (List Char)
  | [], acc => if acc.isEmpty then [] else [acc.reverse]
  | c :: t, acc =>
    if isSpace c then
      if acc.isEmpty then pyWordsAux t [] else acc.reverse :: pyWordsAux t []
    else pyWordsAux t (c :: acc)

/-- Python's `str.split()` with no separator argument. -/
def pyWords (l : List Char) : List (List Char) := pyWordsAux l []

/-- Python's `' '.join(words)`. -/
def pyJoinSpace (ws : List (List Char)) : List Char := (List.intersperse [' '] ws).flatten

/-- `' '.join(s.split())`: collapse internal whitespace runs to single spaces. -/
def collapse (l : List Char) : List Char := pyJoinSpace (pyWords l)

/-- One attempt of the anchored substitution `re.sub(r'^(f)\s+', '', q)` for a
single alternative `f`: if `q` starts with `f` followed by at least one
whitespace character, drop `f` and the whole whitespace run (the regex `\s+` is
greedy and the replacement is empty); otherwise report no match. -/
def stripOneLead (f : List Char) (q : List Char) : Option (List Char) :=
  if f.isPrefixOf q then
    match q.drop f.length with
    | [] => none
    | c :: t => if isSpace c then some ((c :: t).dropWhile isSpace) else none
  else none

/-- `re.sub(r'^(f1|f2|...)\s+', '', q)`: the regex engine tries the
alternatives left to right at position 0 and performs at most one removal. -/
def stripLeadAux : List String → List Char → List Char
  | [], q => q
  | f :: fs, q =>
    match stripOneLead f.data q with
    | some r => r
    | none => stripLeadAux fs q

/-- One attempt of `re.sub(r'\s+(f)$', '', q)` for a single alternative `f`:
if `q` ends with `f` preceded by at least one whitespace character, drop the
suffix `f` together with the whole preceding whitespace run. -/
def stripOneTrail (f : List Char) (q : List Char) : Option (List Char) :=
  if f.reverse.isPrefixOf q.reverse then
    match q.reverse.drop f.length with
    | [] => none
    | c :: t => if isSpace c then some (((c :: t).dropWhile isSpace).reverse) else none
  else none

/-- `re.sub(r'\s+(f1|f2|...)$', '', q)`: alternatives tried left to right,
at most one removal. -/
def stripTrailAux : List String → List Char → List Char
  | [], q => q
  | f :: fs, q =>
    match stripOneTrail f.data q with
    | some r => r
    | none => stripTrailAux fs q

/-- Leading filler phrases of `ActionAnswerHealthQuestion.run` (line 550),
in the alternation order of the regex. -/
def question_lead_fillers : List String :=
  ["i have", "what is", "tell me about", "tell about", "info about",
   "information on", "about", "info on"]

/-- Trailing filler suffixes of `ActionAnswerHealthQuestion.run` (line 551). -/
def question_trail_fillers : List String :=
  ["info", "information", "symptoms", "symptom", "disease"]

/-- Leading filler phrases of `search_health_info` (line 33). -/
def search_lead_fillers : List String :=
  ["what is", "tell me about", "tell about", "info about", "information on",
   "i have", "my"]

/-- Trailing filler suffixes of `search_health_info` (line 34). -/
def search_trail_fillers : List String :=
  ["info", "information", "symptoms", "symptom"]

/-- Query cleaning of `ActionAnswerHealthQuestion.run`, lines 550-552: strip
one leading filler phrase, one trailing filler suffix, then trim whitespace.
(The incoming text was already lowercased at line 547; both regexes also set
`re.IGNORECASE`, which is inert on lowercase input.) -/
def clean_question (q : String) : String :=
  String.mk (pstrip (stripTrailAux question_trail_fillers
    (stripLeadAux question_lead_fillers q.data)))

/-- Query cleaning of `search_health_info`, lines 30-35: `strip().lower()`,
strip one leading filler phrase, one trailing filler suffix, then
`' '.join(query.split()).strip()` (collapse internal whitespace and trim). -/
def clean_search (q : String) : String :=
  let q1 := pyLower (String.mk (pstrip q.data))
  let q2 := stripTrailAux search_trail_fillers (stripLeadAux search_lead_fillers q1.data)
  String.mk (pstrip (collapse q2))

/-- Python `dict` literal semantics for a sequence of key/value pairs: a
repeated key keeps its first insertion position but takes its last value. -/
def pyDict (l : List (String × String)) : List (String × String) :=
  l.foldl
    (fun acc kv =>
      if acc.any (fun p => p.1 == kv.1) then
        acc.map (fun p => if p.1 == kv.1 then (p.1, kv.2) else p)
      else acc ++ [kv])
    []

/-- The `health_topics` dict literal of `ActionAnswerHealthQuestion.run`
(lines 579-1572), as the source sequence of key/value pairs.  Each advisory
text block is represented by the tag `key@line` naming the source line where
that block starts; the lookup loop never inspects the text, only the keys.
Note the duplicated keys (`diabetes`, `hypertension`, `cancer`, `heart`,
`stroke`), each defined twice with differing content. -/
def health_topics_src : List (String × String) :=
  [("fever", "fever@580"), ("typhoid", "typhoid@609"), ("cholera", "cholera@633"),
   ("malaria", "malaria@654"), ("dengue", "dengue@677"), ("jaundice", "jaundice@700"),
   ("tuberculosis", "tuberculosis@722"), ("diabetes", "diabetes@744"),
   ("hypertension", "hypertension@765"), ("asthma", "asthma@781"), ("pcod", "pcod@799"),
   ("hepatitis a", "hepatitis a@819"), ("hepatitis b", "hepatitis b@854"),
   ("hepatitis", "hepatitis@892"), ("chickenpox", "chickenpox@894"),
   ("measles", "measles@939"), ("mumps", "mumps@978"), ("migraine", "migraine@1016"),
   ("headache", "headache@1062"), ("back pain", "back pain@1104"),
   ("knee pain", "knee pain@1152"), ("leg pain", "leg pain@1176"),
   ("joint pain", "joint pain@1195"), ("diabetes", "diabetes@1197"),
   ("hypertension", "hypertension@1230"), ("blood pressure", "blood pressure@1253"),
   ("thyroid", "thyroid@1255"), ("cancer", "cancer@1272"), ("heart", "heart@1285"),
   ("stroke", "stroke@1301"), ("covid", "covid@1312"),
   ("mental health", "mental health@1328"), ("pregnancy", "pregnancy@1340"),
   ("pneumonia", "pneumonia@1367"), ("cancer", "cancer@1396"), ("heart", "heart@1424"),
   ("stroke", "stroke@1445"), ("arthritis", "arthritis@1470"),
   ("alzheimer", "alzheimer@1496"), ("depression", "depression@1521"),
   ("anxiety", "anxiety@1549")]

/-- The effective `health_topics` mapping: the dict literal evaluated with
Python semantics (36 distinct keys in first-insertion order, duplicated keys
carrying their last-defined text). -/
def health_topics : List (String × String) := pyDict health_topics_src

/-- Knowledge-base lookup loop of `ActionAnswerHealthQuestion.run`, lines
1574-1579: iterate over `health_topics.items()` and answer with the first
entry whose key is a substring of the question or contains the question. -/
def kb_lookup (question : String) : Option String :=
  (health_topics.find? (fun p => pyIn p.1 question || pyIn question p.1)).map
    (fun p => p.2)

/-- The symptom keyword table of `ActionSymptomChecker._extract_multiple_symptoms`
(lines 420-435): canonical symptom name paired with its surface forms. -/
def symptom_keywords : List (String × List String) :=
  [("fever", ["fever", "temperature", "feverish"]),
   ("cough", ["cough", "coughing"]),
   ("headache", ["headache", "head pain", "migraine"]),
   ("body ache", ["body ache", "body pain", "muscle pain"]),
   ("fatigue", ["tired", "fatigue", "weakness", "weak"]),
   ("sore throat", ["sore throat", "throat pain"]),
   ("nausea", ["nausea", "vomiting"]),
   ("breathlessness", ["breathless", "breathing problem", "shortness of breath"]),
   ("chest pain", ["chest pain"]),
   ("stomach pain", ["stomach pain", "stomach ache", "abdominal pain"]),
   ("diarrhea", ["diarrhea", "loose motion"]),
   ("rash", ["rash", "skin rash"]),
   ("leg pain", ["leg pain", "leg hurt"]),
   ("joint pain", ["joint pain", "knee pain"])]

/-- `ActionSymptomChecker._extract_multiple_symptoms` (lines 418-442): a
canonical symptom is detected when any of its surface forms occurs as a
substring of the (lowercased) message; detections are collected in table
order. -/
def extract_multiple_symptoms (message : String) : List String :=
  (symptom_keywords.filter (fun p => p.2.any (fun kw => pyIn kw message))).map
    (fun p => p.1)

/-- Required symptom set of the flu rule (line 448). -/
def flu_symptoms : List String := ["fever", "cough", "body ache", "fatigue"]
/-- Required symptom set of the possible-COVID rule (line 452). -/
def covid_symptoms : List String := ["fever", "cough", "breathlessness", "fatigue"]
/-- Required symptom set of the common-cold rule (line 456). -/
def cold_symptoms : List String := ["sore throat", "cough", "headache"]
/-- Required symptom set of the possible-dengue rule (line 460). -/
def dengue_symptoms : List String := ["fever", "headache", "body ache", "rash"]
/-- Required symptom set of the gastroenteritis rule (line 464). -/
def gastro_symptoms : List String := ["stomach pain", "nausea", "diarrhea"]
/-- Designated emergency symptom set (line 469). -/
def emergency_symptoms : List String := ["breathlessness", "chest pain"]

/-- `len(set(symptoms) & required)`: intersection cardinality of the detected
symptoms with a rule's required set.  The required sets above are
duplicate-free, so counting required symptoms present in the detected list
equals the Python set-intersection cardinality. -/
def overlap (required symptoms : List String) : Nat :=
  (required.filter (fun s => symptoms.contains s)).length

/-- Flu hypothesis text (line 450). -/
def flu_text : String := "🟡 **Flu/Influenza** - Rest, hydrate, monitor temperature"
/-- Possible-COVID hypothesis text (line 454). -/
def covid_text : String := "🟠 **Possible COVID-19** - Get tested immediately! Isolate yourself."
/-- Common-cold hypothesis text (line 458). -/
def cold_text : String := "🟢 **Common Cold** - Rest, warm fluids, steam inhalation"
/-- Possible-dengue hypothesis text (line 462). -/
def dengue_text : String := "🔴 **Possible Dengue** - See doctor immediately! Get tested."
/-- Gastroenteritis hypothesis text (line 466). -/
def gastro_text : String := "🟡 **Gastroenteritis** - Stay hydrated (ORS), avoid solid food temporarily"
/-- Emergency directive text (line 471). -/
def emergency_text : String := "🔴 **EMERGENCY** - Seek immediate medical attention! Call 108"
/-- Generic fallback hypothesis text (line 474). -/
def general_text : String := "🟢 **General illness** - Monitor symptoms and consult doctor if worsens"

/-- The five threshold rules of `_analyze_symptoms` (lines 446-466): the
`conditions` list after the five sequential `if` blocks have appended their
hypothesis texts in declaration order. -/
def triage_conditions (symptoms : List String) : List String :=
  (if 2 ≤ overlap flu_symptoms symptoms then [flu_text] else []) ++
  (if 2 ≤ overlap covid_symptoms symptoms then [covid_text] else []) ++
  (if 2 ≤ overlap cold_symptoms symptoms then [cold_text] else []) ++
  (if 3 ≤ overlap dengue_symptoms symptoms then [dengue_text] else []) ++
  (if 2 ≤ overlap gastro_symptoms symptoms then [gastro_text] else [])

/-- `ActionSymptomChecker._analyze_symptoms` (lines 444-476) as the list of
condition hypotheses: threshold rules in declaration order, then
`conditions.insert(0, emergency)` when any detected symptom is in the
emergency set, then the generic fallback when the list is still empty.
The rendered analysis is `"\n\n".join` of this list. -/
def analyze_symptoms_list (symptoms : List String) : List String :=
  let conditions := triage_conditions symptoms
  let conditions :=
    if symptoms.any (fun s => emergency_symptoms.contains s) then
      emergency_text :: conditions
    else conditions
  if conditions.isEmpty then [general_text] else conditions

/-- The rendered analysis string returned by `_analyze_symptoms` (line 476). -/
def analyze_symptoms (symptoms : List String) : String :=
  String.intercalate "\n\n" (analyze_symptoms_list symptoms)

/-- Disease-question phrases tested at line 396 of `ActionSymptomChecker.run`. -/
def disease_question_phrases : List String :=
  ["what is", "tell me about", "info about", "information on"]

/-- Marker for control flow leaving `ActionSymptomChecker.run`. -/
inductive SCOutcome
  /-- the run delegated to `ActionAnswerHealthQuestion().run(...)` -/
  | delegated
  deriving DecidableEq, Repr

/-- `ActionSymptomChecker.run` (lines 386-416).  In the source the
`return action.run(dispatcher, tracker, domain)` at line 399 is indented at
the level of the `if` of line 396, not inside it, so it executes
unconditionally: when the message contains a disease-question phrase the run
delegates; otherwise the local `action` was never assigned and the `return`
raises `UnboundLocalError`.  The symptom-extraction and triage code of lines
400-416 is unreachable. -/
def symptom_checker_run (message : String) : Except String SCOutcome :=
  if disease_question_phrases.any (fun p => pyIn p message) then
    Except.ok SCOutcome.delegated
  else
    Except.error "UnboundLocalError: local variable referenced before assignment"

/-- A Python slot value as far as the validators distinguish it: a string, a
number (`int`/`float`, modelled exactly as a rational), or `None`. -/
inductive PyV
  | str (s : String)
  | num (q : ℚ)
  | pnone
  deriving DecidableEq, Repr

/-- Whether a `PyV` is a string (`isinstance(v, str)`). -/
def PyV.isStr : PyV → Bool
  | .str _ => true
  | _ => false

/-- `ValidateBMIForm.validate_gender` (lines 1804-1823): on a string input,
lowercase and trim, then test the male, female and other synonym lists in
order with Python's substring `in`; the first list with a hit decides the
category.  Any non-string input, or a string with no hit, clears the slot and
utters the corrective prompt.  Returns the stored slot value and whether the
corrective prompt was uttered. -/
def validate_gender (slot_value : PyV) : Option String × Bool :=
  match slot_value with
  | .str s =>
    let gender := String.mk (pstrip (pyLower s).data)
    if ["male", "man", "boy", "m"].any (fun g => pyIn g gender) then
      (some "male", false)
    else if ["female", "woman", "girl", "f"].any (fun g => pyIn g gender) then
      (some "female", false)
    else if ["other", "transgender", "trans"].any (fun g => pyIn g gender) then
      (some "other", false)
    else (none, true)
  | _ => (none, true)

/-- A JSON field value as the COVID statistics code meets it: the numeric
field when present, or the default string `"N/A"` supplied to `dict.get`. -/
inductive JVal
  | int (n : ℤ)
  | str (s : String)
  deriving DecidableEq

/-- Digit grouping of `'{:,}'.format` for a natural number. -/
def commaGroupAux : List Char → List Char
  | a :: b :: c :: d :: rest => a :: b :: c :: ',' :: commaGroupAux (d :: rest)
  | l => l

/-- `'{:,}'.format(n)` for an integer `n`. -/
def intWithCommas (n : ℤ) : String :=
  let digits := (Nat.toDigits 10 n.natAbs).reverse
  let grouped := (commaGroupAux digits).reverse
  String.mk (if n < 0 then '-' :: grouped else grouped)

/-- Python's `format(v, ',')` as applied inside the f-string: an integer is
rendered with thousands separators, but a string operand raises
`ValueError: Cannot specify ',' with 's'`. -/
def pyFormatComma : JVal → Except String String
  | .int n => Except.ok (intWithCommas n)
  | .str _ => Except.error "ValueError: comma format specifier not allowed with str"

/-- `data.get(key, 'N/A')` on the parsed statistics JSON (numeric fields
modelled as integers). -/
def pyGetNA (data : List (String × ℤ)) (key : String) : JVal :=
  match data.find? (fun p => p.1 == key) with
  | some p => JVal.int p.2
  | none => JVal.str "N/A"

/-- The COVID statistics f-string of `search_health_info` (lines 115-128):
each field interpolation `{data.get(field, 'N/A'):,}` is evaluated in order
and the message is assembled only if every one of them succeeds. -/
def covid_stats_message (data : List (String × ℤ)) : Except String String := do
  let c ← pyFormatComma (pyGetNA data "cases")
  let a ← pyFormatComma (pyGetNA data "active")
  let r ← pyFormatComma (pyGetNA data "recovered")
  let d ← pyFormatComma (pyGetNA data "deaths")
  let t ← pyFormatComma (pyGetNA data "todayCases")
  Except.ok ("📊 **COVID-19 Statistics - India**\n\n**Current Status:**\n• Total Cases: "
    ++ c ++ "\n• Active Cases: " ++ a ++ "\n• Recovered: " ++ r ++ "\n• Deaths: " ++ d
    ++ "\n• Today\x27s Cases: " ++ t
    ++ "\n\n**Resources:**\n📱 CoWIN: cowin.gov.in\n📞 COVID Helpline: 1800-11-4377\n🏥 Free testing at Government hospitals\n⚠️ Follow COVID-appropriate behavior")

/-- The COVID block of `search_health_info` (lines 107-131) after a 200
response: the f-string is built inside `try`; any exception is caught and the
function falls through to `return None`. -/
def covid_block (data : List (String × ℤ)) : Option String :=
  match covid_stats_message data with
  | Except.ok m => some m
  | Except.error _ => none

/-- Python truthiness of a slot value, as tested by
`all([weight, height, age, gender])` at line 1843. -/
def truthy : Option PyV → Bool
  | none => false
  | some (.str s) => !(s == "")
  | some (.num q) => !(q == 0)
  | some .pnone => false

/-- The terminating paths of `ActionCalculateBMI.run`. -/
inductive BmiPath
  /-- line 1844: a slot was missing/falsy -/
  | missing
  /-- line 1887: the summary message was rendered -/
  | success
  /-- line 1896: an exception was caught -/
  | error
  deriving DecidableEq, Repr

/-- The four `SlotSet(..., None)` events returned on every path of
`ActionCalculateBMI.run` (lines 1845-1850, 1889-1894, 1900-1905). -/
def reset_events : List (String × Option PyV) :=
  [("weight", none), ("height", none), ("age", none), ("gender", none)]

/-- `ActionCalculateBMI.run` (lines 1830-1905), tracked up to its terminating
path and returned slot events.  With all four slots truthy, the body computes
`height_m = height / 100`, `bmi = weight / height_m ** 2` (no ZeroDivisionError,
since a truthy numeric height is nonzero), the category, recommendations and
ideal range, renders the summary and utters it; the rendered text is elided
here as it does not affect the returned events.  If any slot holds a value of
the wrong type (e.g. a string weight in the division, or a numeric gender in
`gender.title()`), the arithmetic raises and the `except` branch runs. -/
def bmi_run (weight height age gender : Option PyV) :
    BmiPath × List (String × Option PyV) :=
  if truthy weight && truthy height && truthy age && truthy gender then
    match weight, height, age, gender with
    | some (.num _), some (.num _), some (.num _), some (.str _) =>
      (BmiPath.success, reset_events)
    | _, _, _, _ => (BmiPath.error, reset_events)
  else (BmiPath.missing, reset_events)

/-- Simplified `float(s)`: optional surrounding whitespace, optional sign,
decimal digits with an optional fractional part (at least one digit overall).
Exponent notation, `inf`/`nan` and underscore separators — which the program
never receives from its slot fillers — are not modelled and parse as `none`
(a `ValueError`). -/
def pyFloat (s : String) : Option ℚ :=
  let l := pstrip s.data
  let signAndRest : ℚ × List Char :=
    match l with
    | '-' :: t => (-1, t)
    | '+' :: t => (1, t)
    | _ => (1, l)
  let sign := signAndRest.1
  let body := signAndRest.2
  let intPart := body.takeWhile Char.isDigit
  let rest := body.dropWhile Char.isDigit
  let digitsVal : List Char → ℚ := fun ds =>
    ((ds.foldl (fun acc c => acc * 10 + (c.toNat - 48)) 0 : ℕ) : ℚ)
  match rest with
  | [] => if intPart.isEmpty then none else some (sign * digitsVal intPart)
  | '.' :: frac =>
    if frac.all Char.isDigit && !(intPart.isEmpty && frac.isEmpty) then
      some (sign * (digitsVal intPart + digitsVal frac / (10 : ℚ) ^ frac.length))
    else none
  | _ => none

/-- Simplified `int(s)`: optional surrounding whitespace, optional sign,
decimal digits only. -/
def pyInt (s : String) : Option ℤ :=
  let l := pstrip s.data
  let signAndRest : ℤ × List Char :=
    match l with
    | '-' :: t => (-1, t)
    | '+' :: t => (1, t)
    | _ => (1, l)
  let body := signAndRest.2
  if body.isEmpty || !body.all Char.isDigit then none
  else some (signAndRest.1 * (body.foldl (fun acc c => acc * 10 + (c.toNat - 48)) 0 : ℕ))

/-- The literal 98.6 of line 2081, as the exact rational 493/5 written in
lowest terms (so that it evaluates by reduction; see `temp_normal_eq`). -/
def temp_normal : ℚ := Rat.mk' 493 5

/-- `ValidateHealthCheckupForm.validate_temperature` (lines 2069-2094).  A
string input is lowercased; the four wellness words map to 98.6, otherwise the
string is parsed with `float` and range-checked against 95.0-107.0, with parse
failure or an out-of-range value clearing the slot and uttering a corrective
message.  Any non-string input falls through to line 2094 and is returned
unchanged, with no range check.  Returns the stored slot value and the
corrective message, if any. -/
def validate_temperature (slot_value : PyV) : Option PyV × Option String :=
  match slot_value with
  | .str s =>
    let sl := pyLower s
    if sl == "normal" || sl == "fine" || sl == "ok" || sl == "good" then
      (some (PyV.num temp_normal), none)
    else
      match pyFloat sl with
      | some t =>
        if 95 ≤ t ∧ t ≤ 107 then (some (PyV.num t), none)
        else (none, some "Temperature should be between 95°F and 107°F.")
      | none => (none, some "Please provide valid temperature (e.g., 98.6 or \x27normal\x27).")
  | v => (some v, none)

/-- Ordinary fever recommendation (line 2198). -/
def fever_rec : String := "🔥 Fever detected. Rest, hydrate, consult doctor if persists."
/-- High-fever emergency recommendation (line 2200). -/
def high_fever_rec : String := "🚨 HIGH FEVER! Seek immediate medical attention!"
/-- High-pain recommendation (line 2205). -/
def high_pain_rec : String := "⚠️ High pain level. Seek medical attention."
/-- Moderate-pain recommendation (line 2207). -/
def moderate_pain_rec : String := "💊 Moderate pain. Rest and consider pain relief."
/-- Mood recommendation (line 2212). -/
def mood_rec : String := "🧠 Mental health matters. Consider relaxation or counseling."
/-- Stable-health fallback (line 2215). -/
def stable_rec : String := "✅ Health seems stable. Maintain healthy habits!"

/-- Temperature branch of `ActionSubmitCheckup._analyze_health` (lines
2196-2200): only a numeric temperature is examined, `temp > 100.4` is tested
first and `temp >= 103` only in the `elif`.  The float literal 100.4 is
modelled as the rational 502/5 (the double is within 6e-15 of it; no branch
here is sensitive to that gap, since the `elif` needs `temp >= 103`). -/
def temp_recs (temp : Option ℚ) : List String :=
  match temp with
  | some t =>
    if 502 / 5 < t then [fever_rec]
    else if 103 ≤ t then [high_fever_rec]
    else []
  | none => []

/-- Thresholding of the parsed pain score (lines 2204-2207); a failed parse
(`none`) reaches the bare `except: pass` and appends nothing. -/
def pain_score_recs (score : Option ℤ) : List String :=
  match score with
  | some n => if 7 ≤ n then [high_pain_rec] else if 4 ≤ n then [moderate_pain_rec] else []
  | none => []

/-- Pain branch of `_analyze_health` (lines 2202-2209): `int(pain) if pain
else 0` inside `try`; a falsy slot (None or empty string) counts as 0, an
unparsable string raises and the bare `except: pass` skips the branch. -/
def pain_recs (pain : Option String) : List String :=
  pain_score_recs
    (match pain with
     | none => some 0
     | some s => if s == "" then some 0 else pyInt s)

/-- Mood branch of `_analyze_health` (line 2211): a truthy mood whose
lowercased text contains one of the three keywords. -/
def mood_recs (mood : Option String) : List String :=
  match mood with
  | some m =>
    if !(m == "") && (["sad", "anxious", "stressed"].any (fun k => pyIn k (pyLower m))) then
      [mood_rec]
    else []
  | none => []

/-- `ActionSubmitCheckup._analyze_health` (lines 2193-2217) as the list of
recommendations: temperature, pain and mood branches append in order, and the
stable fallback fires when nothing was appended.  The rendered analysis is
the bulleted join of this list.  (A non-numeric temperature slot is modelled
as `none`, matching the `isinstance(temp, (int, float))` guard.) -/
def analyze_health_recs (temp : Option ℚ) (mood pain : Option String) : List String :=
  let recs := temp_recs temp ++ pain_recs pain ++ mood_recs mood
  if recs.isEmpty then [stable_rec] else recs

/-- Whether the anchored leading-filler regex would still match `l` (so one
more cleaning pass would remove something at the front). -/
def hasLeadFiller (fs : List String) (l : List Char) : Bool :=
  fs.any (fun f => (stripOneLead f.data l).isSome)

/-- Whether the anchored trailing-filler regex would still match `l`. -/
def hasTrailFiller (fs : List String) (l : List Char) : Bool :=
  fs.any (fun f => (stripOneTrail f.data l).isSome)

/-! ## Supporting lemmas -/

/-- If no leading filler phrase matches, the anchored substitution is the
identity. -/
theorem stripLeadAux_eq_self {fs : List String} {l : List Char}
    (h : hasLeadFiller fs l = false) : stripLeadAux fs l = l := by
  induction fs with
  | nil => rfl
  | cons f fs ih =>
    simp only [hasLeadFiller, List.any_cons, Bool.or_eq_false_iff] at h
    have h1 : stripOneLead f.data l = none := Option.not_isSome_iff_eq_none.mp (by
      simp [h.1])
    simp only [stripLeadAux, h1]
    exact ih (by simpa [hasLeadFiller] using h.2)

/-- If no trailing filler suffix matches, the anchored substitution is the
identity. -/
theorem stripTrailAux_eq_self {fs : List String} {l : List Char}
    (h : hasTrailFiller fs l = false) : stripTrailAux fs l = l := by
  induction fs with
  | nil => rfl
  | cons f fs ih =>
    simp only [hasTrailFiller, List.any_cons, Bool.or_eq_false_iff] at h
    have h1 : stripOneTrail f.data l = none := Option.not_isSome_iff_eq_none.mp (by
      simp [h.1])
    simp only [stripTrailAux, h1]
    exact ih (by simpa [hasTrailFiller] using h.2)

/-- The first element surviving `dropWhile` fails the predicate. -/
theorem dropWhile_eq_cons_head {α : Type} (p : α → Bool) :
    ∀ (l : List α) (c : α) (t : List α), l.dropWhile p = c :: t → p c = false := by
  intro l
  induction l with
  | nil => intro c t h; simp [List.dropWhile] at h
  | cons a l ih =>
    intro c t h
    rw [List.dropWhile_cons] at h
    by_cases hpa : p a = true
    · rw [if_pos hpa] at h
      exact ih c t h
    · rw [if_neg hpa] at h
      injection h with h1 _
      subst h1
      exact Bool.not_eq_true _ |>.mp hpa

/-- Python's `str.strip` is idempotent. -/
theorem pstrip_idem (l : List Char) : pstrip (pstrip l) = pstrip l := by
  unfold pstrip
  rcases hpre : (l.dropWhile isSpace).rdropWhile isSpace with _ | ⟨c, t⟩
  · simp
  · obtain ⟨u, hu⟩ := ( List.rdropWhile_prefix isSpace (l.dropWhile isSpace))
    rw [hpre] at hu
    have hc : isSpace c = false :=
      dropWhile_eq_cons_head isSpace l c (t ++ u) (by rw [← hu]; simp)
    have h1 : List.dropWhile isSpace (c :: t) = c :: t := by
      rw [List.dropWhile_cons, if_neg (by simp [hc])]
    rw [h1, ← hpre, List.rdropWhile_idempotent]

/-- `temp_normal` is the rational 98.6 = 493/5. -/
theorem temp_normal_eq : temp_normal = 493 / 5 := by
  rw [temp_normal, Rat.mk'_eq_divInt, Rat.divInt_eq_div]
  norm_num

/-- Membership in a conditional singleton. -/
theorem mem_ite_singleton (t x : String) (c : Prop) [Decidable c] :
    t ∈ (if c then [x] else []) ↔ c ∧ t = x := by
  split_ifs with h
  · simp [h]
  · simp [h]

/-- A hypothesis text other than the emergency directive and the generic
fallback is in the triage output iff a threshold rule put it there. -/
theorem mem_analyze_of_ne (t : String) (hne : t ≠ emergency_text)
    (hng : t ≠ general_text) (S : List String) :
    t ∈ analyze_symptoms_list S ↔ t ∈ triage_conditions S := by
  simp only [analyze_symptoms_list]
  cases hany : S.any (fun s => emergency_symptoms.contains s) with
  | false =>
    simp only [Bool.false_eq_true, if_false]
    cases hemp : (triage_conditions S).isEmpty with
    | false => simp
    | true =>
      rw [List.isEmpty_iff] at hemp
      rw [hemp]
      simp [hng, hne]
  | true =>
    simp only [if_true]
    simp [List.mem_cons, hne]

/-- `high_fever_rec` never appears in the temperature branch: the `elif` that
would emit it is shadowed by the weaker `temp > 100.4` test. -/
theorem hf_not_mem_temp_recs (temp : Option ℚ) : high_fever_rec ∉ temp_recs temp := by
  rcases temp with _ | t
  · decide
  · show high_fever_rec ∉
      (if 502 / 5 < t then [fever_rec] else if 103 ≤ t then [high_fever_rec] else [])
    split_ifs with h1 h2
    · simp only [List.mem_singleton]; decide
    · exact absurd (lt_of_lt_of_le (by norm_num) h2) h1
    · simp

/-- `high_fever_rec` never appears in the thresholded pain branch. -/
theorem hf_not_mem_pain_score_recs (score : Option ℤ) :
    high_fever_rec ∉ pain_score_recs score := by
  rcases score with _ | n
  · decide
  · show high_fever_rec ∉
      (if 7 ≤ n then [high_pain_rec] else if 4 ≤ n then [moderate_pain_rec] else [])
    split_ifs
    · simp only [List.mem_singleton]; decide
    · simp only [List.mem_singleton]; decide
    · simp

/-- `high_fever_rec` never appears in the pain branch. -/
theorem hf_not_mem_pain_recs (pain : Option String) : high_fever_rec ∉ pain_recs pain :=
  hf_not_mem_pain_score_recs _

/-- `high_fever_rec` never appears in the mood branch. -/
theorem hf_not_mem_mood_recs (mood : Option String) : high_fever_rec ∉ mood_recs mood := by
  rcases mood with _ | m
  · decide
  · show high_fever_rec ∉
      (if (!(m == "") && (["sad", "anxious", "stressed"].any (fun k => pyIn k (pyLower m))))
        then [mood_rec] else [])
    split_ifs
    · simp only [List.mem_singleton]; decide
    · simp

/-! ## Claims -/

/-- Claim C1, counterexample: `'hepatitis'` is verbatim a key of the knowledge
base, yet looking up exactly `"hepatitis"` returns the `'hepatitis a'` entry
(declared earlier, at line 819), not the `'hepatitis'` entry of line 892:
exact-match priority does not hold. -/
theorem hepatitis_exact_lookup_shadowed :
    ("hepatitis", "hepatitis@892") ∈ health_topics ∧
    kb_lookup "hepatitis" = some "hepatitis a@819" ∧
    ("hepatitis a@819" : String) ≠ "hepatitis@892" := by
  exact ⟨by decide, by decide, by decide⟩

/-- Claim C1, amended: for every key of the knowledge base other than
`'hepatitis'`, looking up exactly that key returns that key's own entry (for a
duplicated key, the last-defined text); looking up `"hepatitis"` instead
returns the `'hepatitis a'` entry, because `"hepatitis"` is a substring of the
earlier-declared `'hepatitis a'` key and the first partial match wins. -/
theorem kb_exact_lookup_except_hepatitis :
    (∀ p ∈ health_topics, p.1 = "hepatitis" ∨ kb_lookup p.1 = some p.2) ∧
    kb_lookup "hepatitis" = some "hepatitis a@819" := by
  exact ⟨by decide, by decide⟩

/-- Claim C1, witness: the non-hepatitis case of the amended theorem at the
key `"fever"`. -/
theorem kb_exact_lookup_witness : kb_lookup "fever" = some "fever@580" :=
  (kb_exact_lookup_except_hepatitis.1 ("fever", "fever@580") (by decide)).resolve_left
    (by decide)

/-- Claim C2, code-bug evidence: the utterance `"i have fever and cough"`
contains none of the disease-question phrases, and the symptom keyword table
detects fever and cough in it, which the triage rules would turn into
hypotheses — but `ActionSymptomChecker.run` raises `UnboundLocalError` on it,
because the `return action.run(...)` of line 399 sits outside the `if` of
line 396 and the extraction/triage code of lines 400-416 is unreachable. -/
theorem symptom_checker_raises_on_symptom_report :
    symptom_checker_run "i have fever and cough" =
      Except.error "UnboundLocalError: local variable referenced before assignment" ∧
    extract_multiple_symptoms "i have fever and cough" = ["fever", "cough"] ∧
    analyze_symptoms_list ["fever", "cough"] = [flu_text, covid_text] := by
  exact ⟨rfl, by decide, by decide⟩

/-- Claim C3, code-bug evidence: the male synonym list is tested first with
Python's substring `in`, and `'male'` is a substring of `'female'` (as `'man'`
is of `'woman'`), so the free-text inputs `"female"` and `"woman"` are mapped
to `"male"`; only `"girl"` reaches the female branch. -/
theorem validate_gender_female_maps_to_male :
    validate_gender (PyV.str "female") = (some "male", false) ∧
    validate_gender (PyV.str "woman") = (some "male", false) ∧
    validate_gender (PyV.str "girl") = (some "female", false) ∧
    validate_gender (PyV.str "unknown") = (none, true) := by
  exact ⟨by decide, by decide, by decide, by decide⟩

/-- Claim C4, counterexample: neither query cleaner is idempotent.  Each pass
removes at most one leading filler phrase, so on
`"what is info about flu"` the first pass yields `"info about flu"` and the
second strips again to `"flu"`. -/
theorem normalize_not_idempotent :
    clean_question (clean_question "what is info about flu") ≠
      clean_question "what is info about flu" ∧
    clean_search (clean_search "what is info about flu") ≠
      clean_search "what is info about flu" := by
  exact ⟨by decide, by decide⟩

/-- Claim C4, amended: a single cleaning pass strips at most one leading
filler phrase and one trailing filler suffix, so the normalizer is not
idempotent in general; it is idempotent on every query whose cleaned form
retains no leading filler phrase and no trailing filler suffix. -/
theorem normalize_idempotent_when_fillerfree :
    ∀ x : String,
      hasLeadFiller question_lead_fillers (clean_question x).data = false →
      hasTrailFiller question_trail_fillers (clean_question x).data = false →
      clean_question (clean_question x) = clean_question x := by
  intro x h1 h2
  show String.mk (pstrip (stripTrailAux question_trail_fillers
    (stripLeadAux question_lead_fillers (clean_question x).data))) = clean_question x
  rw [stripLeadAux_eq_self h1, stripTrailAux_eq_self h2]
  have hdata : (clean_question x).data = pstrip (stripTrailAux question_trail_fillers
      (stripLeadAux question_lead_fillers x.data)) := rfl
  rw [hdata, pstrip_idem]
  rfl

/-- Claim C4, witness: the amended idempotence at the query
`"what is flu"`, whose cleaned form `"flu"` is filler-free. -/
theorem normalize_idempotent_witness :
    hasLeadFiller question_lead_fillers (clean_question "what is flu").data = false ∧
    hasTrailFiller question_trail_fillers (clean_question "what is flu").data = false ∧
    clean_question (clean_question "what is flu") = clean_question "what is flu" :=
  ⟨by decide, by decide,
   normalize_idempotent_when_fillerfree "what is flu" (by decide) (by decide)⟩

/-- Claim C5, code-bug evidence: when the parsed statistics JSON lacks the
numeric field `cases`, `dict.get` supplies the string `'N/A'` and the
thousands-separator format spec `:,` of the f-string raises `ValueError`
(the comma spec is invalid for strings), so no statistics message is produced
and the surrounding handler falls back; with every field present the message
is produced. -/
theorem covid_stats_missing_field_raises :
    covid_stats_message [("active", 5), ("recovered", 3), ("deaths", 1), ("todayCases", 2)] =
      Except.error "ValueError: comma format specifier not allowed with str" ∧
    covid_block [("active", 5), ("recovered", 3), ("deaths", 1), ("todayCases", 2)] = none ∧
    (covid_stats_message
      [("cases", 45035393), ("active", 5), ("recovered", 3), ("deaths", 1),
       ("todayCases", 2)]).isOk = true := by
  exact ⟨rfl, rfl, rfl⟩

/-- Claim C6, confirmed: every terminating path of `ActionCalculateBMI.run` —
missing slot, rendered result, or caught exception — returns the four
`SlotSet(..., None)` events, so no path leaves the slot state partially
filled. -/
theorem bmi_run_always_resets_slots :
    ∀ weight height age gender : Option PyV,
      (bmi_run weight height age gender).2 = reset_events := by
  intro w h a g
  by_cases hc : (truthy w && truthy h && truthy a && truthy g) = true
  · unfold bmi_run
    rw [if_pos hc]
    split <;> rfl
  · unfold bmi_run
    rw [if_neg hc]

/-- Claim C7, confirmed: whenever the detected symptom set contains
`breathlessness` or `chest pain`, the emergency directive is in the triage
output and is its first element, ahead of all other matched hypotheses. -/
theorem emergency_symptom_first :
    ∀ symptoms : List String,
      ("breathlessness" ∈ symptoms ∨ "chest pain" ∈ symptoms) →
      (analyze_symptoms_list symptoms).head? = some emergency_text ∧
      emergency_text ∈ analyze_symptoms_list symptoms := by
  intro S h
  have hany : (S.any (fun s => emergency_symptoms.contains s)) = true := by
    rcases h with h | h
    · exact List.any_eq_true.mpr ⟨_, h, by decide⟩
    · exact List.any_eq_true.mpr ⟨_, h, by decide⟩
  have hrun : analyze_symptoms_list S = emergency_text :: triage_conditions S := by
    simp only [analyze_symptoms_list, hany]
    simp
  constructor
  · rw [hrun]
    rfl
  · rw [hrun]
    exact List.mem_cons_self _ _

/-- Claim C7, witness: the emergency directive leads the output for the
detected set `["chest pain"]`. -/
theorem emergency_symptom_first_witness :
    (analyze_symptoms_list ["chest pain"]).head? = some emergency_text ∧
    emergency_text ∈ analyze_symptoms_list ["chest pain"] :=
  emergency_symptom_first ["chest pain"] (Or.inr (by decide))

/-- Claim C8, confirmed: each threshold rule's hypothesis appears in the
triage output exactly when the intersection of the detected set with the
rule's required set reaches the rule's threshold; in particular, for
`{fever, cough, body ache}` the flu hypothesis is included (overlap 3 ≥ 2)
and the dengue hypothesis is excluded (overlap 2 < 3). -/
theorem triage_threshold_iff :
    (∀ S, flu_text ∈ analyze_symptoms_list S ↔ 2 ≤ overlap flu_symptoms S) ∧
    (∀ S, covid_text ∈ analyze_symptoms_list S ↔ 2 ≤ overlap covid_symptoms S) ∧
    (∀ S, cold_text ∈ analyze_symptoms_list S ↔ 2 ≤ overlap cold_symptoms S) ∧
    (∀ S, dengue_text ∈ analyze_symptoms_list S ↔ 3 ≤ overlap dengue_symptoms S) ∧
    (∀ S, gastro_text ∈ analyze_symptoms_list S ↔ 2 ≤ overlap gastro_symptoms S) ∧
    flu_text ∈ analyze_symptoms_list ["fever", "cough", "body ache"] ∧
    dengue_text ∉ analyze_symptoms_list ["fever", "cough", "body ache"] := by
  refine ⟨?_, ?_, ?_, ?_, ?_, by decide, by decide⟩
  · intro S
    rw [mem_analyze_of_ne flu_text (by decide) (by decide)]
    have d1 : flu_text ≠ covid_text := by decide
    have d2 : flu_text ≠ cold_text := by decide
    have d3 : flu_text ≠ dengue_text := by decide
    have d4 : flu_text ≠ gastro_text := by decide
    simp [triage_conditions, List.mem_append, mem_ite_singleton, d1, d2, d3, d4]
  · intro S
    rw [mem_analyze_of_ne covid_text (by decide) (by decide)]
    have d1 : covid_text ≠ flu_text := by decide
    have d2 : covid_text ≠ cold_text := by decide
    have d3 : covid_text ≠ dengue_text := by decide
    have d4 : covid_text ≠ gastro_text := by decide
    simp [triage_conditions, List.mem_append, mem_ite_singleton, d1, d2, d3, d4]
  · intro S
    rw [mem_analyze_of_ne cold_text (by decide) (by decide)]
    have d1 : cold_text ≠ flu_text := by decide
    have d2 : cold_text ≠ covid_text := by decide
    have d3 : cold_text ≠ dengue_text := by decide
    have d4 : cold_text ≠ gastro_text := by decide
    simp [triage_conditions, List.mem_append, mem_ite_singleton, d1, d2, d3, d4]
  · intro S
    rw [mem_analyze_of_ne dengue_text (by decide) (by decide)]
    have d1 : dengue_text ≠ flu_text := by decide
    have d2 : dengue_text ≠ covid_text := by decide
    have d3 : dengue_text ≠ cold_text := by decide
    have d4 : dengue_text ≠ gastro_text := by decide
    simp [triage_conditions, List.mem_append, mem_ite_singleton, d1, d2, d3, d4]
  · intro S
    rw [mem_analyze_of_ne gastro_text (by decide) (by decide)]
    have d1 : gastro_text ≠ flu_text := by decide
    have d2 : gastro_text ≠ covid_text := by decide
    have d3 : gastro_text ≠ cold_text := by decide
    have d4 : gastro_text ≠ dengue_text := by decide
    simp [triage_conditions, List.mem_append, mem_ite_singleton, d1, d2, d3, d4]

/-- Claim C9, confirmed: for every numeric temperature the high-fever
emergency recommendation is unreachable — `temp > 100.4` is tested before
`temp >= 103`, so any temperature at or above 103 °F receives only the
ordinary fever advice. -/
theorem high_fever_branch_unreachable :
    ∀ (temp : Option ℚ) (mood pain : Option String),
      high_fever_rec ∉ analyze_health_recs temp mood pain ∧
      (∀ t, temp = some t → 103 ≤ t →
        fever_rec ∈ analyze_health_recs temp mood pain) := by
  intro temp mood pain
  constructor
  · simp only [analyze_health_recs]
    by_cases he : (temp_recs temp ++ pain_recs pain ++ mood_recs mood).isEmpty = true
    · rw [if_pos he]
      simp only [List.mem_singleton]
      decide
    · rw [if_neg he]
      simp only [List.mem_append]
      push_neg
      exact ⟨⟨hf_not_mem_temp_recs temp, hf_not_mem_pain_recs pain⟩,
        hf_not_mem_mood_recs mood⟩
  · intro t ht h103
    subst ht
    have htemp : temp_recs (some t) = [fever_rec] := by
      show (if 502 / 5 < t then [fever_rec]
            else if 103 ≤ t then [high_fever_rec] else []) = [fever_rec]
      rw [if_pos (lt_of_lt_of_le (by norm_num) h103)]
    simp [analyze_health_recs, htemp]

/-- Claim C9, witness: at a temperature of exactly 103 °F the output carries
the ordinary fever advice and not the high-fever emergency recommendation. -/
theorem high_fever_branch_unreachable_witness :
    high_fever_rec ∉ analyze_health_recs (some 103) none none ∧
    fever_rec ∈ analyze_health_recs (some 103) none none :=
  ⟨(high_fever_branch_unreachable (some 103) none none).1,
   (high_fever_branch_unreachable (some 103) none none).2 103 rfl (le_refl 103)⟩

/-- Claim C10, confirmed: a non-string temperature slot value is returned
unchanged with no range check; only string inputs get the wellness-word
mapping to 98.6 and the 95-107 °F bound. -/
theorem validate_temperature_nonstring_bypass :
    (∀ v : PyV, v.isStr = false → validate_temperature v = (some v, none)) ∧
    validate_temperature (PyV.str "normal") = (some (PyV.num temp_normal), none) ∧
    validate_temperature (PyV.str "fine") = (some (PyV.num temp_normal), none) ∧
    validate_temperature (PyV.str "ok") = (some (PyV.num temp_normal), none) ∧
    validate_temperature (PyV.str "good") = (some (PyV.num temp_normal), none) ∧
    (∀ s t, pyFloat (pyLower s) = some t →
      (95 ≤ t ∧ t ≤ 107 → validate_temperature (PyV.str s) = (some (PyV.num t), none)) ∧
      (¬(95 ≤ t ∧ t ≤ 107) →
        validate_temperature (PyV.str s) =
          (none, some "Temperature should be between 95°F and 107°F."))) := by
  refine ⟨?_, rfl, rfl, rfl, rfl, ?_⟩
  · intro v hv
    cases v with
    | str s => simp [PyV.isStr] at hv
    | num q => rfl
    | pnone => rfl
  · intro s t hpt
    have hb : (pyLower s == "normal" || pyLower s == "fine" || pyLower s == "ok"
        || pyLower s == "good") = false := by
      cases hcase : (pyLower s == "normal" || pyLower s == "fine" || pyLower s == "ok"
          || pyLower s == "good") with
      | false => rfl
      | true =>
        exfalso
        simp only [Bool.or_eq_true, beq_iff_eq] at hcase
        rcases hcase with ((h | h) | h) | h <;> rw [h] at hpt <;>
          exact Option.noConfusion hpt
    have hred : validate_temperature (PyV.str s) =
        (if 95 ≤ t ∧ t ≤ 107 then (some (PyV.num t), none)
         else (none, some "Temperature should be between 95°F and 107°F.")) := by
      simp only [validate_temperature]
      rw [hb]
      simp only [Bool.false_eq_true, if_false]
      rw [hpt]
    constructor
    · intro hrange
      rw [hred, if_pos hrange]
    · intro hrange
      rw [hred, if_neg hrange]

/-- Claim C10, witness: the non-string value 200 (far above the 107 °F bound)
is stored unchanged, while the string `"200"` is rejected by the range
check. -/
theorem validate_temperature_nonstring_bypass_witness :
    validate_temperature (PyV.num 200) = (some (PyV.num 200), none) ∧
    validate_temperature (PyV.str "200") =
      (none, some "Temperature should be between 95°F and 107°F.") := by
  have h200 : pyFloat (pyLower "200") = some 200 := by
    rw [show pyFloat (pyLower "200") = some (1 * ((200 : ℕ) : ℚ)) from rfl]
    norm_num
  exact ⟨validate_temperature_nonstring_bypass.1 (PyV.num 200) rfl,
    (validate_temperature_nonstring_bypass.2.2.2.2.2 "200" 200 h200).2
      (by norm_num)⟩
